import Mathlib

/-!
Verification development for the Url2Bibtex repository (handler dispatch and
resolution pipeline).  The Python source under `src/url2bibtex/` is shallowly
embedded: pure code becomes Lean functions, the HTTP transport becomes an
explicit deterministic function of the request, Python randomness becomes an
explicit stream of rationals, `time.sleep` calls are recorded in a trace, and
uncaught Python exceptions become an explicit `Except` layer.

Modelling conventions (ASCII scope):
* byte strings are modelled as already-decoded `String`s, so `bytes.decode`
  is the identity and never fails;
* character classes of the Python regexes are interpreted over ASCII;
* the request timeout value and the concrete contents of the randomized
  browser headers are not observed by the stubbed transport (the transport is
  a deterministic function of url, query parameters, accept header and
  attempt index), but the random draws the header generation consumes are
  accounted for in the random stream.
-/

/-! ## Python-level primitives -/

/-- Uncaught Python exceptions that the embedded code can raise. -/
inductive PyExn where
  | valueError (msg : String)
  | typeError
  | attributeError
  | indexError
deriving DecidableEq, Repr

/-- JSON values, as returned by `response.json()`. -/
inductive JVal where
  | null
  | bool (b : Bool)
  | num (n : Int)
  | str (s : String)
  | arr (xs : List JVal)
  | obj (fields : List (String × JVal))
deriving Repr

/-- Python truthiness of a JSON value (`if not content:`). -/
def JVal.falsy : JVal → Bool
  | .null => true
  | .bool b => !b
  | .num n => n == 0
  | .str s => s.isEmpty
  | .arr xs => xs.isEmpty
  | .obj fs => fs.isEmpty

/-- The value `fetch_with_retry` hands back on success: parsed JSON when the
response content type is JSON, otherwise the raw response body. -/
inductive FetchVal where
  | json (j : JVal)
  | bytes (s : String)
deriving Repr

/-- Python truthiness of a fetched value. -/
def FetchVal.falsy : FetchVal → Bool
  | .json j => j.falsy
  | .bytes s => s.isEmpty

/-- The whitespace characters stripped by Python `str.strip()` (ASCII). -/
def isPySpace (c : Char) : Bool :=
  c = ' ' || c = '\t' || c = '\n' || c = '\x0d' || c = Char.ofNat 11 || c = Char.ofNat 12

/-- `str.strip()` on a character list. -/
def pyStripList (l : List Char) : List Char :=
  ((l.dropWhile isPySpace).reverse.dropWhile isPySpace).reverse

/-- Python `str.strip()`. -/
def pyStrip (s : String) : String :=
  String.mk (pyStripList s.toList)

/-- ASCII lowercasing of a string (kernel-computable `str.lower()`). -/
def lowerStr (s : String) : String :=
  String.mk (s.toList.map Char.toLower)

/-- Python `str.startswith` (kernel-computable). -/
def pyStartsWith (s pre : String) : Bool :=
  pre.toList.isPrefixOf s.toList

/-- Python `str.split()` (split on whitespace runs, dropping empties). -/
def pySplitWs : List Char → List Char → List (List Char)
  | [], cur => if cur.isEmpty then [] else [cur.reverse]
  | c :: t, cur =>
      if isPySpace c then
        if cur.isEmpty then pySplitWs t [] else cur.reverse :: pySplitWs t []
      else pySplitWs t (c :: cur)

/-- Digit-run validity for Python `int(str)`: digits with single underscores
allowed strictly between digits. -/
def pyDigitsTail : List Char → Bool
  | [] => true
  | '_' :: t =>
      match t with
      | c :: t2 => c.isDigit && pyDigitsTail t2
      | [] => false
  | c :: t => c.isDigit && pyDigitsTail t

/-- Digit part of a Python integer literal: nonempty, starts with a digit. -/
def pyDigitsOk : List Char → Bool
  | [] => false
  | c :: t => c.isDigit && pyDigitsTail t

/-- Numeric value of a digit run (underscores skipped). -/
def pyDigitsVal (l : List Char) : Nat :=
  l.foldl (fun acc c => if c = '_' then acc else acc * 10 + (c.toNat - 48)) 0

/-- Python `int(str)`: optional surrounding whitespace, optional sign, ASCII
digits with underscore separators; `none` models an uncaught `ValueError`. -/
def parsePyInt (s : String) : Option Int :=
  let l := pyStripList s.toList
  match l with
  | '-' :: t => if pyDigitsOk t then some (-(pyDigitsVal t : Int)) else none
  | '+' :: t => if pyDigitsOk t then some ((pyDigitsVal t : Int)) else none
  | _ => if pyDigitsOk l then some ((pyDigitsVal l : Int)) else none

/-! ## Generic substring machinery (used to embed the `re` searches) -/

/-- Consume an exact literal, returning the remaining input. -/
def stripLit : List Char → List Char → Option (List Char)
  | [], l => some l
  | _ :: _, [] => none
  | a :: la, b :: lb => if a = b then stripLit la lb else none

/-- Consume an exact literal case-insensitively (literal given lowercase). -/
def stripLitCI : List Char → List Char → Option (List Char)
  | [], l => some l
  | _ :: _, [] => none
  | a :: la, b :: lb => if a = b.toLower then stripLitCI la lb else none

/-- Greedy `p+`: the maximal nonempty run of characters satisfying `p`,
with the rest of the input. -/
def takeRun1 (p : Char → Bool) (l : List Char) : Option (List Char × List Char) :=
  let run := l.takeWhile p
  if run.isEmpty then none else some (run, l.dropWhile p)

/-- Try a positional matcher at every suffix, leftmost first: the embedding of
`re.search` for a pattern whose positional matcher is `m`. -/
def searchSuffixes {α : Type} (m : List Char → Option α) : List Char → Option α
  | [] => m []
  | c :: t =>
      match m (c :: t) with
      | some a => some a
      | none => searchSuffixes m t

/-- Does `needle` occur inside `haystack` (Python `in` on strings)? -/
def containsSub (needle : String) (haystack : String) : Bool :=
  (searchSuffixes (fun l => stripLit needle.toList l) haystack.toList).isSome

/-- One fuel-indexed pass of `str.replace`: replace non-overlapping
occurrences left to right (all call sites use nonempty patterns). -/
def replaceList (pat sub : List Char) : Nat → List Char → List Char
  | 0, l => l
  | _ + 1, [] => []
  | fuel + 1, c :: t =>
      match stripLit pat (c :: t) with
      | some rest => sub ++ replaceList pat sub fuel rest
      | none => c :: replaceList pat sub fuel t

/-- Python `str.replace` (kernel-computable). -/
def replaceStr (s pat sub : String) : String :=
  if pat.isEmpty then s
  else String.mk (replaceList pat.toList sub.toList (s.toList.length + 1) s.toList)

/-! ## The fetch layer: `utils.fetch_with_retry` -/

/-- An HTTP response as observed by `fetch_with_retry`: status code, headers,
the result of `response.json()` (`none` models a JSON decode error) and the
raw body. -/
structure HttpResponse where
  status : Nat
  headers : List (String × String)
  jsonVal : Option JVal
  content : String

/-- One observed behavior of `session.get`: a response or a raised
transport exception (`requests.exceptions.SSLError`, `Timeout`, or another
`RequestException`). -/
inductive TransportResult where
  | resp (r : HttpResponse)
  | sslError
  | timeoutError
  | requestError

/-- The stubbed transport: a deterministic function of request url, query
parameters, accept header and attempt index. -/
def Transport : Type :=
  String → List (String × String) → String → Nat → TransportResult

/-- The random stream backing the `random` module; `rng k` models the k-th
draw of `random.random()` in `[0, 1]`. -/
def Rng : Type := Nat → ℚ

/-- `random.uniform lo hi` realized from the k-th draw. -/
def uniformAt (rng : Rng) (k : Nat) (lo hi : ℚ) : ℚ :=
  lo + (hi - lo) * rng k

/-- Header lookup of `requests` response headers is case-insensitive. -/
def headerGet (hs : List (String × String)) (name : String) : Option String :=
  (hs.find? (fun p => lowerStr p.1 == lowerStr name)).map (·.2)

/-- The three flavours of `time.sleep` calls inside `fetch_with_retry`:
the small randomized pre-attempt delay, the exponential backoff after an
error, and the rate-limit (429) wait. -/
inductive SleepKind where
  | preDelay
  | backoff
  | rateLimit
deriving DecidableEq, Repr

/-- A recorded `time.sleep`: the attempt index that triggered it, its kind
and its duration in seconds. -/
structure SleepEvent where
  attempt : Nat
  kind : SleepKind
  dur : ℚ
deriving DecidableEq, Repr

/-- The retry loop body of `utils.fetch_with_retry` (`for attempt in
range(max_retries)`).  In the successor case `remaining` counts the loop
iterations left after the current one, so `remaining = 0` exactly on the
last attempt.  `k` indexes the random stream; the sleep trace is
accumulated in reverse.  The `.error` results model the uncaught
`ValueError` raised by `int()` on a malformed `Retry-After` header and by
`time.sleep` on a negative duration; every other failure path falls through
to `none`. -/
def fetchAux (t : Transport) (rng : Rng) (url : String)
    (params : List (String × String)) (accept : String) (useBrowser : Bool) :
    Nat → Nat → Nat → List SleepEvent → Except PyExn (Option FetchVal) × List SleepEvent
  | 0, _, _, trace => (.ok none, trace.reverse)
  | Nat.succ remaining, attempt, k, trace =>
    -- get_browser_headers consumes one draw for random.choice(user_agents)
    let k1 := if useBrowser then k + 1 else k
    -- small random delay before every attempt after the first
    let st :=
      if attempt > 0 then
        (k1 + 1, (⟨attempt, SleepKind.preDelay, uniformAt rng k1 (1/2) (3/2)⟩ : SleepEvent) :: trace)
      else (k1, trace)
    let k2 := st.1
    let trace1 := st.2
    match t url params accept attempt with
    | TransportResult.resp r =>
        if r.status = 429 then
          match headerGet r.headers "Retry-After" with
          | some v =>
              match parsePyInt v with
              | none =>
                  (.error (PyExn.valueError ("invalid literal for int with base 10: " ++ v)),
                   trace1.reverse)
              | some n =>
                  if n < 0 then
                    (.error (PyExn.valueError "sleep length must be non-negative"), trace1.reverse)
                  else
                    fetchAux t rng url params accept useBrowser remaining (attempt + 1) k2
                      ((⟨attempt, SleepKind.rateLimit, (n : ℚ)⟩ : SleepEvent) :: trace1)
          | none =>
              fetchAux t rng url params accept useBrowser remaining (attempt + 1) k2
                ((⟨attempt, SleepKind.rateLimit, ((2 : ℚ) ^ attempt)⟩ : SleepEvent) :: trace1)
        else if r.status = 403 then
          if remaining > 0 then
            fetchAux t rng url params accept useBrowser remaining (attempt + 1) (k2 + 1)
              ((⟨attempt, SleepKind.backoff, (2 : ℚ) ^ attempt + uniformAt rng k2 1 3⟩ : SleepEvent) :: trace1)
          else
            (.ok none, trace1.reverse)
        else if 400 ≤ r.status ∧ r.status < 600 then
          -- response.raise_for_status() raises HTTPError, caught as RequestException
          if remaining = 0 then
            (.ok none, trace1.reverse)
          else
            fetchAux t rng url params accept useBrowser remaining (attempt + 1) (k2 + 1)
              ((⟨attempt, SleepKind.backoff, (2 : ℚ) ^ attempt + uniformAt rng k2 0 1⟩ : SleepEvent) :: trace1)
        else
          if containsSub "application/json" ((headerGet r.headers "Content-Type").getD "") then
            match r.jsonVal with
            | some j => (.ok (some (FetchVal.json j)), trace1.reverse)
            | none =>
                -- requests.exceptions.JSONDecodeError is a RequestException
                if remaining = 0 then
                  (.ok none, trace1.reverse)
                else
                  fetchAux t rng url params accept useBrowser remaining (attempt + 1) (k2 + 1)
                    ((⟨attempt, SleepKind.backoff, (2 : ℚ) ^ attempt + uniformAt rng k2 0 1⟩ : SleepEvent) :: trace1)
          else
            (.ok (some (FetchVal.bytes r.content)), trace1.reverse)
    | TransportResult.sslError =>
        if remaining = 0 then
          (.ok none, trace1.reverse)
        else
          fetchAux t rng url params accept useBrowser remaining (attempt + 1) k2
            ((⟨attempt, SleepKind.backoff, (2 : ℚ) ^ attempt⟩ : SleepEvent) :: trace1)
    | TransportResult.timeoutError =>
        if remaining = 0 then
          (.ok none, trace1.reverse)
        else
          fetchAux t rng url params accept useBrowser remaining (attempt + 1) k2
            ((⟨attempt, SleepKind.backoff, (2 : ℚ) ^ attempt⟩ : SleepEvent) :: trace1)
    | TransportResult.requestError =>
        if remaining = 0 then
          (.ok none, trace1.reverse)
        else
          fetchAux t rng url params accept useBrowser remaining (attempt + 1) (k2 + 1)
            ((⟨attempt, SleepKind.backoff, (2 : ℚ) ^ attempt + uniformAt rng k2 0 1⟩ : SleepEvent) :: trace1)

/-- `utils.fetch_with_retry(url, params, max_retries, timeout, accept_header,
use_browser_headers)`: the result together with the recorded sleep trace.
The timeout parameter is only ever forwarded to the transport and is not
modelled. -/
def fetch_with_retry (t : Transport) (rng : Rng) (url : String)
    (params : List (String × String)) (maxRetries : Nat) (accept : String)
    (useBrowser : Bool) : Except PyExn (Option FetchVal) × List SleepEvent :=
  fetchAux t rng url params accept useBrowser maxRetries 0 0 []

/-! ## URL recognition: the handlers' `can_handle` regexes

Each Python pattern is embedded as a positional matcher run at every
position, leftmost first (`re.search`).  Greedy/lazy subtleties are resolved
exactly as the backtracking engine would on these concrete patterns; where a
quantified class cannot overlap the literal that follows it, the greedy run
is forced and no backtracking is possible. -/

/-- `ArxivHandler.ARXIV_PATTERN` at one position:
`arxiv\.org/(?:abs|pdf|html)/(\d+\.\d+)(?:v\d+)?(?:\.pdf)?`; returns the
captured paper id.  The trailing optional groups can never fail. -/
def arxivMatchAt (l : List Char) : Option String := do
  let r ← stripLit "arxiv.org/".toList l
  let r2 ← stripLit "abs/".toList r <|> stripLit "pdf/".toList r <|> stripLit "html/".toList r
  let (d1, r3) ← takeRun1 Char.isDigit r2
  let r4 ← stripLit ['.'] r3
  let (d2, _) ← takeRun1 Char.isDigit r4
  pure (String.mk (d1 ++ '.' :: d2))

/-- `re.search` of `ARXIV_PATTERN`, yielding the captured arXiv id. -/
def arxivFind (url : String) : Option String :=
  searchSuffixes arxivMatchAt url.toList

/-- `ArxivHandler.can_handle`. -/
def arxivCanHandle (url : String) : Bool :=
  (arxivFind url).isSome

/-- Lowercase ASCII letter. -/
def isLowerAlpha (c : Char) : Bool := 'a' ≤ c && c ≤ 'z'

/-- Characters allowed in the DOI capture `[^\s?#]` (ASCII whitespace). -/
def doiTailChar (c : Char) : Bool := !(isPySpace c || c = '?' || c = '#')

/-- `(?:/[a-z]+)*` of the DOI pattern, consumed greedily (its iterations
cannot overlap the `/` that follows, and the capture starts with a digit,
so backtracking can never succeed where the greedy parse fails). -/
def doiSegsAux : Nat → List Char → List Char
  | 0, l => l
  | fuel + 1, l =>
      match l with
      | '/' :: t =>
          match takeRun1 isLowerAlpha t with
          | some (_, rest) => doiSegsAux fuel rest
          | none => l
      | _ => l

/-- The prefix alternation of `DOIHandler.DOI_PATTERN`:
`(?:https?://)?(?:dx\.)?doi\.org/ | doi: | /doi(?:/[a-z]+)*/ |
journals\.aps\.org/[^/]+/(?:abstract|pdf)/ | iopscience\.iop\.org/article/`,
alternatives tried in source order. -/
def doiPrefixAt (l : List Char) : Option (List Char) :=
  (let l1 :=
    match stripLit "https://".toList l with
    | some x => x
    | none =>
        match stripLit "http://".toList l with
        | some x => x
        | none => l
   let l2 :=
    match stripLit "dx.".toList l1 with
    | some x => x
    | none => l1
   stripLit "doi.org/".toList l2)
  <|> stripLit "doi:".toList l
  <|> (do
        let r ← stripLit "/doi".toList l
        stripLit ['/'] (doiSegsAux r.length r))
  <|> (do
        let r ← stripLit "journals.aps.org/".toList l
        let (_, r1) ← takeRun1 (fun c => c ≠ '/') r
        let r2 ← stripLit ['/'] r1
        stripLit "abstract/".toList r2 <|> stripLit "pdf/".toList r2)
  <|> stripLit "iopscience.iop.org/article/".toList l

/-- `DOI_PATTERN` at one position; the capture is `(10\.\d+/[^\s?#]+)`. -/
def doiMatchAt (l : List Char) : Option String := do
  let r ← doiPrefixAt l
  let r1 ← stripLit "10.".toList r
  let (ds, r2) ← takeRun1 Char.isDigit r1
  let r3 ← stripLit ['/'] r2
  let (tl, _) ← takeRun1 doiTailChar r3
  pure (String.mk ('1' :: '0' :: '.' :: ds ++ '/' :: tl))

/-- `re.search` of `DOI_PATTERN`, yielding the captured DOI. -/
def doiFind (url : String) : Option String :=
  searchSuffixes doiMatchAt url.toList

/-- `DOIHandler.can_handle`. -/
def doiCanHandle (url : String) : Bool :=
  (doiFind url).isSome

/-- `BioRxivHandler.can_handle`:
`(?:https?://)?(?:www\.)?biorxiv\.org/content/(10\.1101/[\d.]+)(?:v\d+)?`
with `re.IGNORECASE`.  The optional prefixes and version suffix never decide
whether a match exists, so recognition reduces to finding the mandatory core
in the lowercased URL. -/
def biorxivCanHandle (url : String) : Bool :=
  (searchSuffixes
    (fun l => do
      let r ← stripLit "biorxiv.org/content/10.1101/".toList l
      let _ ← takeRun1 (fun c => c.isDigit || c = '.') r
      pure ())
    (lowerStr url).toList).isSome

/-- `PIIHandler.can_handle`:
`sciencedirect\.com/science/article/(?:abs/)?pii/([A-Z0-9]+)`. -/
def piiCanHandle (url : String) : Bool :=
  (searchSuffixes
    (fun l => do
      let r ← stripLit "sciencedirect.com/science/article/".toList l
      let r1 :=
        match stripLit "abs/".toList r with
        | some x => x
        | none => r
      let r2 ← stripLit "pii/".toList r1
      let _ ← takeRun1 (fun c => c.isDigit || ('A' ≤ c && c ≤ 'Z')) r2
      pure ())
    url.toList).isSome

/-- Exactly `n` characters satisfying `p` (for `\d{n}`). -/
def takeExact (p : Char → Bool) : Nat → List Char → Option (List Char)
  | 0, l => some l
  | _ + 1, [] => none
  | n + 1, c :: t => if p c then takeExact p n t else none

/-- `CellHandler.can_handle`:
`cell\.com/[^/]+/fulltext/(S\d{4}-\d{4}\(\d{2}\)\d{5}-\d)`. -/
def cellCanHandle (url : String) : Bool :=
  (searchSuffixes
    (fun l => do
      let r ← stripLit "cell.com/".toList l
      let (_, r1) ← takeRun1 (fun c => c ≠ '/') r
      let r2 ← stripLit "/fulltext/S".toList r1
      let r3 ← takeExact Char.isDigit 4 r2
      let r4 ← stripLit ['-'] r3
      let r5 ← takeExact Char.isDigit 4 r4
      let r6 ← stripLit ['('] r5
      let r7 ← takeExact Char.isDigit 2 r6
      let r8 ← stripLit [')'] r7
      let r9 ← takeExact Char.isDigit 5 r8
      let r10 ← stripLit ['-'] r9
      let _ ← takeExact Char.isDigit 1 r10
      pure ())
    url.toList).isSome

/-- `OpenReviewHandler.can_handle`:
`openreview\.net/(?:forum|pdf)\?id=([a-zA-Z0-9_-]+)`. -/
def openreviewCanHandle (url : String) : Bool :=
  (searchSuffixes
    (fun l => do
      let r ← stripLit "openreview.net/".toList l
      let r1 ← stripLit "forum".toList r <|> stripLit "pdf".toList r
      let r2 ← stripLit "?id=".toList r1
      let _ ← takeRun1 (fun c => c.isAlphanum || c = '_' || c = '-') r2
      pure ())
    url.toList).isSome

/-- `SemanticScholarHandler.can_handle`:
`semanticscholar\.org/paper/[^/]+/([a-f0-9]+)`. -/
def semanticscholarCanHandle (url : String) : Bool :=
  (searchSuffixes
    (fun l => do
      let r ← stripLit "semanticscholar.org/paper/".toList l
      let (_, r1) ← takeRun1 (fun c => c ≠ '/') r
      let r2 ← stripLit ['/'] r1
      let _ ← takeRun1 (fun c => c.isDigit || isLowerAlpha c && c ≤ 'f') r2
      pure ())
    url.toList).isSome

/-- `GitHubHandler.can_handle`: disjunction of the GitHub, GitLab and Zenodo
patterns `github\.com/([a-zA-Z0-9_-]+)/([a-zA-Z0-9_.-]+)`,
`gitlab\.com/([a-zA-Z0-9_-]+(?:/[a-zA-Z0-9_.-]+)*)` and
`zenodo\.org/record[s]?/(\d+)|doi\.org/10\.5281/zenodo\.(\d+)`. -/
def githubCanHandle (url : String) : Bool :=
  (searchSuffixes
    (fun l => do
      let r ← stripLit "github.com/".toList l
      let (_, r1) ← takeRun1 (fun c => c.isAlphanum || c = '_' || c = '-') r
      let r2 ← stripLit ['/'] r1
      let _ ← takeRun1 (fun c => c.isAlphanum || c = '_' || c = '.' || c = '-') r2
      pure ())
    url.toList).isSome ||
  (searchSuffixes
    (fun l => do
      let r ← stripLit "gitlab.com/".toList l
      let _ ← takeRun1 (fun c => c.isAlphanum || c = '_' || c = '-') r
      pure ())
    url.toList).isSome ||
  (searchSuffixes
    (fun l =>
      (do
        let r ← stripLit "zenodo.org/record".toList l
        let r1 ← stripLit "s/".toList r <|> stripLit ['/'] r
        let _ ← takeRun1 Char.isDigit r1
        pure ())
      <|> (do
        let r ← stripLit "doi.org/10.5281/zenodo.".toList l
        let _ ← takeRun1 Char.isDigit r
        pure ()))
    url.toList).isSome

/-- `IEEEHandler.can_handle`:
`ieeexplore\.ieee\.org/(?:document|abstract/document)/(\d+)`. -/
def ieeeCanHandle (url : String) : Bool :=
  (searchSuffixes
    (fun l => do
      let r ← stripLit "ieeexplore.ieee.org/".toList l
      let r1 ← stripLit "document/".toList r <|> stripLit "abstract/document/".toList r
      let _ ← takeRun1 Char.isDigit r1
      pure ())
    url.toList).isSome

/-- Characters of the ACL Anthology paper-id class `[A-Za-z0-9.-]`. -/
def aclClass (c : Char) : Bool := c.isAlphanum || c = '.' || c = '-'

/-- The completions `/?(?:\.bib)?$` allowed after the lazily captured ACL id
(`$` also matches just before a final newline). -/
def aclTail : List Char → Bool
  | [] => true
  | ['\n'] => true
  | ['/'] => true
  | ['/', '\n'] => true
  | ['.', 'b', 'i', 'b'] => true
  | ['.', 'b', 'i', 'b', '\n'] => true
  | ['/', '.', 'b', 'i', 'b'] => true
  | ['/', '.', 'b', 'i', 'b', '\n'] => true
  | _ => false

/-- The lazy capture `([A-Za-z0-9.-]+?)` of the ACL pattern: the shortest
nonempty class-prefix whose remainder is an allowed completion. -/
def aclGroup : List Char → Option (List Char)
  | [] => none
  | c :: t =>
      if aclClass c then
        if aclTail t then some [c] else (aclGroup t).map (c :: ·)
      else none

/-- `ACLAnthologyHandler.ACL_PATTERN` at one position:
`(?:aclanthology\.org|aclweb\.org/anthology)/([A-Za-z0-9.-]+?)/?(?:\.bib)?$`,
yielding the captured paper id. -/
def aclMatchAt (l : List Char) : Option String := do
  let r ← stripLit "aclanthology.org/".toList l <|> stripLit "aclweb.org/anthology/".toList l
  let g ← aclGroup r
  pure (String.mk g)

/-- `re.search` of `ACL_PATTERN`, yielding the captured paper id. -/
def aclFind (url : String) : Option String :=
  searchSuffixes aclMatchAt url.toList

/-- `ACLAnthologyHandler.can_handle`. -/
def aclCanHandle (url : String) : Bool :=
  (aclFind url).isSome

/-- `HTMLMetaHandler.can_handle`: any HTTP(S) URL. -/
def htmlMetaCanHandle (url : String) : Bool :=
  pyStartsWith url "http://" || pyStartsWith url "https://"

/-! ## `urllib.parse` as used by `UrlParamHandler` -/

/-- The query component of `urlparse`: the part after the first `?` of the
URL once the fragment (everything from the first `#`) is removed. -/
def queryOf (l : List Char) : List Char :=
  let noFrag := l.takeWhile (fun c => c ≠ '#')
  if noFrag.contains '?' then (noFrag.dropWhile (fun c => c ≠ '?')).drop 1 else []

/-- Split on a separator character, keeping empty components. -/
def splitOnChar (sep : Char) : List Char → List Char → List (List Char)
  | [], cur => [cur.reverse]
  | c :: t, cur =>
      if c = sep then cur.reverse :: splitOnChar sep t []
      else splitOnChar sep t (c :: cur)

/-- Split a `name=value` field at its first `=`; `none` when there is no `=`
(such fields are dropped by `parse_qs`). -/
def splitFirstEq (comp : List Char) : Option (List Char × List Char) :=
  if comp.contains '=' then
    some (comp.takeWhile (fun c => c ≠ '='), (comp.dropWhile (fun c => c ≠ '=')).drop 1)
  else none

/-- Hexadecimal digit value. -/
def hexVal (c : Char) : Option Nat :=
  if c.isDigit then some (c.toNat - 48)
  else if 'a' ≤ c && c ≤ 'f' then some (c.toNat - 87)
  else if 'A' ≤ c && c ≤ 'F' then some (c.toNat - 55)
  else none

/-- `urllib.parse.unquote` at the byte level: `%XX` pairs decode to bytes,
malformed escapes stay literal.  Comparisons and ASCII payloads are exact
under this byte-level view. -/
def unquoteBytes : List Char → List Nat
  | [] => []
  | '%' :: a :: b :: t =>
      match hexVal a, hexVal b with
      | some x, some y => (16 * x + y) :: unquoteBytes t
      | _, _ => 37 :: unquoteBytes (a :: b :: t)
  | c :: t => c.toNat :: unquoteBytes t

/-- `+` to space translation applied by `parse_qsl` before unquoting. -/
def plusToSpace (l : List Char) : List Char :=
  l.map (fun c => if c = '+' then ' ' else c)

/-- Decoded bytes back to characters (exact on ASCII; non-ASCII bytes become
the replacement character, which never equals an ASCII character). -/
def bytesToChars (bs : List Nat) : List Char :=
  bs.map (fun b => if b < 128 then Char.ofNat b else Char.ofNat 65533)

/-- The UTF-8 bytes of the parameter name `bib`. -/
def bibBytes : List Nat := [98, 105, 98]

/-- The decoded values of the `bib` query parameter in order, as collected by
`parse_qs(parsed.query)` (blank values and fields without `=` are dropped,
names and values are plus-translated and unquoted). -/
def parseQsBib (url : String) : List (List Char) :=
  (splitOnChar '&' (queryOf url.toList) []).filterMap (fun comp =>
    if comp.isEmpty then none
    else
      match splitFirstEq comp with
      | none => none
      | some (n, v) =>
          if v.isEmpty then none
          else if unquoteBytes (plusToSpace n) == bibBytes then
            some (bytesToChars (unquoteBytes (plusToSpace v)))
          else none)

/-- `UrlParamHandler.can_handle`: the URL query carries a `bib` parameter. -/
def urlParamCanHandle (url : String) : Bool :=
  !(parseQsBib url).isEmpty

/-- The body of `UrlParamHandler.extract_bibtex` (total: its `except` clause
swallows every exception): take the first `bib` value, unquote once more,
strip, and return it when nonempty. -/
def urlParamExtractCore (url : String) : Option String :=
  match parseQsBib url with
  | [] => none
  | v :: _ =>
      let decoded := bytesToChars (unquoteBytes v)
      let stripped := pyStripList decoded
      if stripped.isEmpty then none else some (String.mk stripped)

/-! ## `HTMLMetaHandler`: meta-tag scraping and BibTeX rendering -/

/-- A quote character of the meta-tag pattern class `["\']`. -/
def isQuote (c : Char) : Bool := c = '"' || c = Char.ofNat 39

/-- Consume one quote character. -/
def takeQuote : List Char → Option (List Char)
  | c :: t => if isQuote c then some t else none
  | [] => none

/-- `HTMLMetaHandler` meta pattern at one position (`re.IGNORECASE`):
`<meta\s+(?:name|property)=["\']([^"\']+)["\']\s+content=["\']([^"\']+)["\']`;
yields the two captures and the input remaining after the match. -/
def metaMatchAt (l : List Char) : Option (List Char × List Char × List Char) := do
  let r ← stripLitCI "<meta".toList l
  let (_, r1) ← takeRun1 isPySpace r
  let r2 ← stripLitCI "name".toList r1 <|> stripLitCI "property".toList r1
  let r3 ← stripLit ['='] r2
  let r4 ← takeQuote r3
  let (g1, r5) ← takeRun1 (fun c => !isQuote c) r4
  let r6 ← takeQuote r5
  let (_, r7) ← takeRun1 isPySpace r6
  let r8 ← stripLitCI "content".toList r7
  let r9 ← stripLit ['='] r8
  let r10 ← takeQuote r9
  let (g2, r11) ← takeRun1 (fun c => !isQuote c) r10
  let r12 ← takeQuote r11
  pure (g1, g2, r12)

/-- `meta_pattern.finditer`: all non-overlapping matches, leftmost first. -/
def findMetas : Nat → List Char → List (List Char × List Char)
  | 0, _ => []
  | _ + 1, [] => []
  | fuel + 1, c :: t =>
      match metaMatchAt (c :: t) with
      | some (n, v, rest) => (n, v) :: findMetas fuel rest
      | none => findMetas fuel t

/-- The metadata record built by `HTMLMetaHandler._parse_meta_tags` (every
key of the Python dict is always present; `none` is the stored `None`). -/
structure Metadata where
  title : Option String
  authors : List String
  year : Option String
  journal : Option String
  volume : Option String
  issue : Option String
  pages : Option String
  doi : Option String
  abstract : Option String
  publisher : Option String
  isbn : Option String
  issn : Option String
deriving Repr

/-- The initial metadata dict of `_parse_meta_tags`. -/
def emptyMetadata : Metadata :=
  ⟨none, [], none, none, none, none, none, none, none, none, none, none⟩

/-- `re.search(r"(\d{4})", content)`: the first run of four digits. -/
def find4Digits (l : List Char) : Option String :=
  searchSuffixes
    (fun s =>
      match takeExact Char.isDigit 4 s with
      | some _ => some (String.mk (s.take 4))
      | none => none)
    l

/-- Python truthiness of an optional string field. -/
def truthyStr : Option String → Bool
  | none => false
  | some s => !s.isEmpty

/-- The tag dispatch of `_parse_meta_tags` for one meta tag: lowercase the
name, strip the content, skip blank content, then the if/elif chain of the
source. -/
def processMeta (md : Metadata) (nameRaw contentRaw : List Char) : Metadata :=
  let nm := String.mk (nameRaw.map Char.toLower)
  let ct := pyStripList contentRaw
  if ct.isEmpty then md
  else
    let c := String.mk ct
    if nm = "citation_title" ∨ nm = "dc.title" then { md with title := some c }
    else if nm = "citation_author" ∨ nm = "dc.creator" ∨ nm = "author" then
      { md with authors := md.authors ++ [c] }
    else if nm = "citation_publication_date" ∨ nm = "citation_date" ∨ nm = "dc.date" ∨
        nm = "article:published_time" then
      match find4Digits ct with
      | some y => { md with year := some y }
      | none => md
    else if nm = "citation_journal_title" ∨ nm = "citation_conference_title" ∨
        nm = "dc.source" then
      { md with journal := some c }
    else if nm = "citation_volume" then { md with volume := some c }
    else if nm = "citation_issue" then { md with issue := some c }
    else if nm = "citation_firstpage" then { md with pages := some c }
    else if nm = "citation_lastpage" then
      match md.pages with
      | some p => if p.isEmpty then md else { md with pages := some (p ++ "--" ++ c) }
      | none => md
    else if nm = "citation_doi" ∨ nm = "dc.identifier.doi" then
      { md with doi := some (replaceStr (replaceStr c "https://doi.org/" "") "http://doi.org/" "") }
    else if nm = "citation_abstract" ∨ nm = "dc.description" ∨ nm = "og:description" then
      match md.abstract with
      | none => { md with abstract := some c }
      | some a => if a.isEmpty then { md with abstract := some c } else md
    else if nm = "citation_publisher" ∨ nm = "dc.publisher" then
      { md with publisher := some c }
    else if nm = "citation_isbn" then { md with isbn := some c }
    else if nm = "citation_issn" then { md with issn := some c }
    else md

/-- `HTMLMetaHandler._parse_meta_tags`. -/
def parse_meta_tags (html : String) : Metadata :=
  (findMetas (html.toList.length + 1) html.toList).foldl
    (fun md p => processMeta md p.1 p.2) emptyMetadata

/-- Lowercase ASCII letter or digit, the class kept by
`re.sub(r"[^a-z0-9]", "", ...)`. -/
def isLowerAlnum (c : Char) : Bool := isLowerAlpha c || c.isDigit

/-- Python f-string rendering of a value that is either a string or the
stored `None` (the `year` slot of `_generate_bibtex`; the dict key is always
present, so the `datetime.now().year` default of `.get` is dead code). -/
def pyOptStr : Option String → String
  | none => "None"
  | some s => s

/-- The citation-key computation of `HTMLMetaHandler._generate_bibtex`:
family name of the first author (text before a comma, else the last
whitespace-separated token), lowercased, stripped of non-alphanumeric
characters, then the year; `web<year>` when no author is known. -/
def htmlMetaBibtexKey (authors : List String) (yearStr : String) : String :=
  match authors with
  | [] => "web" ++ yearStr
  | first :: _ =>
      let fal : List Char :=
        if first.toList.contains ',' then
          (pyStripList (first.toList.takeWhile (fun c => c ≠ ','))).map Char.toLower
        else
          match (pySplitWs first.toList []).getLast? with
          | some p => p.map Char.toLower
          | none => "unknown".toList
      String.mk (fal.filter isLowerAlnum) ++ yearStr

/-- `HTMLMetaHandler._generate_bibtex`. -/
def htmlMetaGenerate (md : Metadata) (url : String) : Option String :=
  match md.title with
  | none => none
  | some t =>
      if t.isEmpty then none
      else
        let entryType := if truthyStr md.journal then "article" else "misc"
        let authorsStr :=
          match md.authors with
          | [] => "Unknown Author"
          | _ => String.intercalate " and " md.authors
        let yearStr := pyOptStr md.year
        let key := htmlMetaBibtexKey md.authors yearStr
        let parts :=
          ["@" ++ entryType ++ "\x7b" ++ key ++ ",",
           "  title = \x7b" ++ t ++ "\x7d,",
           "  author = \x7b" ++ authorsStr ++ "\x7d,",
           "  year = \x7b" ++ yearStr ++ "\x7d,"] ++
          (if truthyStr md.journal then
            ["  journal = \x7b" ++ md.journal.getD "" ++ "\x7d,"] else []) ++
          (if truthyStr md.volume then
            ["  volume = \x7b" ++ md.volume.getD "" ++ "\x7d,"] else []) ++
          (if truthyStr md.issue then
            ["  number = \x7b" ++ md.issue.getD "" ++ "\x7d,"] else []) ++
          (if truthyStr md.pages then
            ["  pages = \x7b" ++ md.pages.getD "" ++ "\x7d,"] else []) ++
          (if truthyStr md.doi then
            ["  doi = \x7b" ++ md.doi.getD "" ++ "\x7d,"] else []) ++
          (if truthyStr md.publisher then
            ["  publisher = \x7b" ++ md.publisher.getD "" ++ "\x7d,"] else []) ++
          (if truthyStr md.issn then
            ["  issn = \x7b" ++ md.issn.getD "" ++ "\x7d,"] else []) ++
          (if truthyStr md.isbn then
            ["  isbn = \x7b" ++ md.isbn.getD "" ++ "\x7d,"] else []) ++
          ["  url = \x7b" ++ url ++ "\x7d", "\x7d"]
        some (String.intercalate "\n" parts)

/-- `HTMLMetaHandler.extract_bibtex`: fetch the page as HTML, parse meta
tags, require a title, render.  A JSON response would reach `re.finditer`
as a dict and raise `TypeError`. -/
def htmlMetaExtract (t : Transport) (rng : Rng) (url : String) :
    Except PyExn (Option String) :=
  match (fetch_with_retry t rng url [] 3 "text/html" true).1 with
  | .error e => .error e
  | .ok none => .ok none
  | .ok (some v) =>
      if v.falsy then .ok none
      else
        match v with
        | .json _ => .error PyExn.typeError
        | .bytes html =>
            let md := parse_meta_tags html
            if !truthyStr md.title then .ok none
            else .ok (htmlMetaGenerate md url)

/-! ## `ArxivHandler`: fetch, Atom parse boundary, render -/

/-- The metadata the handler reads off the first `atom:entry` element:
title text, author names, published date text, and the `term` attribute of
the primary category. -/
structure ArxivEntry where
  title : Option String
  authors : List String
  published : Option String
  category : Option String

/-- The `xml.etree.ElementTree` boundary, modelled as an oracle:
`.error ()` is an `ET.ParseError` (caught by the handler), `.ok none` means
the feed has no `atom:entry` element. -/
def AtomOracle : Type := String → Except Unit (Option ArxivEntry)

/-- The citation-key computation of `ArxivHandler.extract_bibtex`:
`author_list[0].split()[-1].lower()` plus the year (no comma handling and no
stripping of non-alphanumeric characters); `arxiv<year>` when the entry has
no authors.  Indexing `[-1]` on an all-whitespace name raises `IndexError`. -/
def arxivBibtexKey (authors : List String) (yearStr : String) : Except PyExn String :=
  match authors with
  | [] => .ok ("arxiv" ++ yearStr)
  | a :: _ =>
      match (pySplitWs a.toList []).getLast? with
      | none => .error PyExn.indexError
      | some last => .ok (String.mk (last.map Char.toLower) ++ yearStr)

/-- The BibTeX rendering of `ArxivHandler.extract_bibtex` from a parsed
entry: title stripped with newlines replaced, authors joined by " and ",
year the first four characters of the published date, primary category in
`primaryClass`. -/
def arxivRender (e : ArxivEntry) (arxivId : String) : Except PyExn String :=
  let titleText :=
    match e.title with
    | some t => replaceStr (pyStrip t) "\n" " "
    | none => "Unknown Title"
  let authorsStr := String.intercalate " and " e.authors
  let yearStr :=
    match e.published with
    | some p => String.mk (p.toList.take 4)
    | none => "Unknown"
  let category := e.category.getD ""
  match arxivBibtexKey e.authors yearStr with
  | .error ex => .error ex
  | .ok key =>
      .ok ("@article\x7b" ++ key ++ ",\n  title = \x7b" ++ titleText ++
        "\x7d,\n  author = \x7b" ++ authorsStr ++
        "\x7d,\n  year = \x7b" ++ yearStr ++
        "\x7d,\n  journal = \x7barXiv preprint arXiv:" ++ arxivId ++
        "\x7d,\n  eprint = \x7b" ++ arxivId ++
        "\x7d,\n  archivePrefix = \x7barXiv\x7d,\n  primaryClass = \x7b" ++ category ++
        "\x7d,\n  url = \x7bhttps://arxiv.org/abs/" ++ arxivId ++ "\x7d\n\x7d")

/-- The arXiv API endpoint `ArxivHandler.ARXIV_API`. -/
def ARXIV_API : String := "http://export.arxiv.org/api/query"

/-- `ArxivHandler.extract_bibtex`: extract the id, query the API, parse the
Atom feed (only `ET.ParseError` is caught), render.  A JSON response would
reach `ET.fromstring` as a dict and raise `TypeError`. -/
def arxivExtract (parse : AtomOracle) (t : Transport) (rng : Rng) (url : String) :
    Except PyExn (Option String) :=
  match arxivFind url with
  | none => .ok none
  | some arxivId =>
      match (fetch_with_retry t rng ARXIV_API [("id_list", arxivId)] 3
          "application/atom+xml" true).1 with
      | .error e => .error e
      | .ok none => .ok none
      | .ok (some v) =>
          if v.falsy then .ok none
          else
            match v with
            | .json _ => .error PyExn.typeError
            | .bytes content =>
                match parse content with
                | .error _ => .ok none
                | .ok none => .ok none
                | .ok (some entry) =>
                    match arxivRender entry arxivId with
                    | .error ex => .error ex
                    | .ok b => .ok (some b)

/-! ## `DOIHandler` and `ACLAnthologyHandler` extraction -/

/-- The DOI resolution endpoint `DOIHandler.DOI_API`. -/
def DOI_API : String := "https://doi.org"

/-- `DOIHandler.extract_bibtex`: content-negotiate BibTeX from doi.org and
return the stripped text whenever nonempty — the response is not checked to
begin with `@`.  A JSON response would reach `.strip()` as a dict and raise
`AttributeError`. -/
def doiExtract (t : Transport) (rng : Rng) (url : String) :
    Except PyExn (Option String) :=
  match doiFind url with
  | none => .ok none
  | some doi =>
      match (fetch_with_retry t rng (DOI_API ++ "/" ++ doi) [] 3
          "application/x-bibtex" true).1 with
      | .error e => .error e
      | .ok none => .ok none
      | .ok (some v) =>
          if v.falsy then .ok none
          else
            match v with
            | .json _ => .error PyExn.attributeError
            | .bytes b =>
                let s := pyStrip b
                if s.isEmpty then .ok none else .ok (some s)

/-- `ACLAnthologyHandler.extract_bibtex`: fetch the `.bib` export and accept
the stripped text only when it begins with `@`. -/
def aclExtract (t : Transport) (rng : Rng) (url : String) :
    Except PyExn (Option String) :=
  match aclFind url with
  | none => .ok none
  | some pid =>
      match (fetch_with_retry t rng ("https://aclanthology.org/" ++ pid ++ ".bib") [] 3
          "text/plain" true).1 with
      | .error e => .error e
      | .ok none => .ok none
      | .ok (some v) =>
          if v.falsy then .ok none
          else
            match v with
            | .json _ => .error PyExn.attributeError
            | .bytes b =>
                let s := pyStrip b
                if !s.isEmpty && pyStartsWith s "@" then .ok (some s) else .ok none

/-! ## `Handler`, `HandlerRegistry` and the `Url2Bibtex` facade -/

/-- The type of a strategy's extraction procedure. -/
def ExtractFn : Type := Transport → Rng → String → Except PyExn (Option String)

/-- A handler: URL predicate plus extraction procedure. -/
structure Handler where
  can_handle : String → Bool
  extract_bibtex : ExtractFn

/-- `HandlerRegistry`: the ordered list `_handlers`. -/
structure HandlerRegistry where
  _handlers : List Handler

/-- `HandlerRegistry.register`: append. -/
def HandlerRegistry.register (r : HandlerRegistry) (h : Handler) : HandlerRegistry :=
  ⟨r._handlers ++ [h]⟩

/-- `HandlerRegistry.get_handler`: linear scan in registration order,
first handler whose `can_handle` accepts the URL. -/
def HandlerRegistry.get_handler (r : HandlerRegistry) (url : String) : Option Handler :=
  r._handlers.find? (fun h => h.can_handle url)

/-- The converter facade. -/
structure Url2Bibtex where
  registry : HandlerRegistry

/-- `Url2Bibtex.register_handler`. -/
def Url2Bibtex.register_handler (c : Url2Bibtex) (h : Handler) : Url2Bibtex :=
  ⟨c.registry.register h⟩

/-- A caller-visible failure of `convert`: the `ValueError` raised at the
facade when no handler matched (the unsupported-URL condition), or an
exception propagating out of the selected handler. -/
inductive ConvertErr where
  | unsupported (msg : String)
  | raised (e : PyExn)
deriving DecidableEq, Repr

/-- `Url2Bibtex.convert`: resolve a handler (raising `ValueError` when none
is found) and return whatever its `extract_bibtex` returns — a missing
result comes back as the `None` sentinel, not an error. -/
def Url2Bibtex.convert (c : Url2Bibtex) (t : Transport) (rng : Rng) (url : String) :
    Except ConvertErr (Option String) :=
  match c.registry.get_handler url with
  | none => .error (ConvertErr.unsupported ("No handler found for URL: " ++ url))
  | some h =>
      match h.extract_bibtex t rng url with
      | .error e => .error (ConvertErr.raised e)
      | .ok v => .ok v

/-- `Url2Bibtex.can_convert`. -/
def Url2Bibtex.can_convert (c : Url2Bibtex) (url : String) : Bool :=
  (c.registry.get_handler url).isSome

/-- `convert` instrumented with the list of handlers whose `extract_bibtex`
the call invokes. -/
def Url2Bibtex.convertTrace (c : Url2Bibtex) (t : Transport) (rng : Rng) (url : String) :
    Except ConvertErr (Option String) × List Handler :=
  match c.registry.get_handler url with
  | none => (.error (ConvertErr.unsupported ("No handler found for URL: " ++ url)), [])
  | some h =>
      (match h.extract_bibtex t rng url with
       | .error e => .error (ConvertErr.raised e)
       | .ok v => .ok v, [h])

/-! ## The concrete handlers and the default converter -/

/-- `UrlParamHandler` (its extraction is pure and total). -/
def urlParamHandler : Handler :=
  ⟨urlParamCanHandle, fun _ _ url => .ok (urlParamExtractCore url)⟩

/-- `ArxivHandler`, parameterized by the Atom parsing oracle. -/
def arxivHandler (parse : AtomOracle) : Handler :=
  ⟨arxivCanHandle, arxivExtract parse⟩

/-- `DOIHandler`. -/
def doiHandler : Handler := ⟨doiCanHandle, doiExtract⟩

/-- `ACLAnthologyHandler`. -/
def aclHandler : Handler := ⟨aclCanHandle, aclExtract⟩

/-- `HTMLMetaHandler`. -/
def htmlMetaHandler : Handler := ⟨htmlMetaCanHandle, htmlMetaExtract⟩

/-- `BioRxivHandler`; its extraction procedure is irrelevant to the claims
below, so it is a parameter and the theorems hold for every implementation,
the source's included.  The same applies to the next six handlers. -/
def biorxivHandler (ex : ExtractFn) : Handler := ⟨biorxivCanHandle, ex⟩

/-- `PIIHandler`. -/
def piiHandler (ex : ExtractFn) : Handler := ⟨piiCanHandle, ex⟩

/-- `CellHandler`. -/
def cellHandler (ex : ExtractFn) : Handler := ⟨cellCanHandle, ex⟩

/-- `OpenReviewHandler`. -/
def openreviewHandler (ex : ExtractFn) : Handler := ⟨openreviewCanHandle, ex⟩

/-- `SemanticScholarHandler`. -/
def semanticscholarHandler (ex : ExtractFn) : Handler := ⟨semanticscholarCanHandle, ex⟩

/-- `GitHubHandler`. -/
def githubHandler (ex : ExtractFn) : Handler := ⟨githubCanHandle, ex⟩

/-- `IEEEHandler`. -/
def ieeeHandler (ex : ExtractFn) : Handler := ⟨ieeeCanHandle, ex⟩

/-- `default_converter.py`: the twelve handlers registered in source order —
`UrlParamHandler` first, `HTMLMetaHandler` (the fallback) last. -/
def defaultConverter (parse : AtomOracle)
    (exBio exPii exCell exOpen exSS exGH exIEEE : ExtractFn) : Url2Bibtex :=
  ((((((((((((Url2Bibtex.mk ⟨[]⟩).register_handler
    urlParamHandler).register_handler
    (arxivHandler parse)).register_handler
    doiHandler).register_handler
    (biorxivHandler exBio)).register_handler
    (piiHandler exPii)).register_handler
    (cellHandler exCell)).register_handler
    (openreviewHandler exOpen)).register_handler
    (semanticscholarHandler exSS)).register_handler
    (githubHandler exGH)).register_handler
    (ieeeHandler exIEEE)).register_handler
    aclHandler).register_handler
    htmlMetaHandler

/-! ## Shared stubs for concrete instantiations -/

/-- A concrete random stream. -/
def rng0 : Rng := fun _ => (1 : ℚ) / 2

/-- A second concrete random stream, distinct from `rng0`. -/
def rngAlt : Rng := fun k => (k : ℚ) / 7

/-- A transport whose every request raises a transient `RequestException`. -/
def transport0 : Transport := fun _ _ _ _ => TransportResult.requestError

/-- An Atom oracle for which every payload is a parse error. -/
def parse0 : AtomOracle := fun _ => Except.error ()

/-- An extraction stub that always reports no result. -/
def ex0 : ExtractFn := fun _ _ _ => Except.ok none

/-- A stub strategy that recognizes every URL (used to exercise resolution
order). -/
def stubHandlerA : Handler := ⟨fun _ => true, fun _ _ _ => Except.ok (some "A")⟩

/-- A second stub strategy that also recognizes every URL. -/
def stubHandlerB : Handler := ⟨fun _ => true, fun _ _ _ => Except.ok (some "B")⟩

/-- A transport that always answers a successful plain-text BibTeX export
(for exercising the ACL Anthology handler). -/
def aclStubTransport : Transport :=
  fun _ _ _ _ =>
    TransportResult.resp ⟨200, [("Content-Type", "text/plain")], none, "@misc\x7bk\x7d"⟩

/-- A transport that always answers 429 with a non-numeric Retry-After. -/
def badRetryTransport : Transport :=
  fun _ _ _ _ => TransportResult.resp ⟨429, [("Retry-After", "abc")], none, ""⟩

/-- A transport raising a transient error on the first two attempts and
succeeding on the third. -/
def flakyTransport : Transport :=
  fun _ _ _ attempt =>
    if attempt ≤ 1 then TransportResult.requestError
    else TransportResult.resp ⟨200, [("Content-Type", "text/plain")], none, "ok"⟩

/-- A transport that always answers 429 with `Retry-After: 5`. -/
def rateLimitedTransport : Transport :=
  fun _ _ _ _ => TransportResult.resp ⟨429, [("Retry-After", "5")], none, ""⟩

/-- The Atom oracle of the end-to-end arXiv example: the stubbed feed parses
to an entry with title "Example Paper", author "Jane Doe", published date
"2021-03-01" and primary category "cs.CV". -/
def atomOracle8 : AtomOracle :=
  fun s =>
    if s = "stub-atom-feed" then
      Except.ok (some ⟨some "Example Paper", ["Jane Doe"], some "2021-03-01", some "cs.CV"⟩)
    else Except.error ()

/-- The transport of the end-to-end arXiv example: the arXiv API returns the
stubbed Atom feed. -/
def arxivTransport8 : Transport :=
  fun url _ _ _ =>
    if url = ARXIV_API then
      TransportResult.resp ⟨200, [("Content-Type", "application/atom+xml")], none, "stub-atom-feed"⟩
    else TransportResult.requestError

/-- The registration order of the default converter, spelled out. -/
theorem defaultConverter_handlers (parse : AtomOracle)
    (exBio exPii exCell exOpen exSS exGH exIEEE : ExtractFn) :
    (defaultConverter parse exBio exPii exCell exOpen exSS exGH exIEEE).registry._handlers =
      [urlParamHandler, arxivHandler parse, doiHandler, biorxivHandler exBio,
       piiHandler exPii, cellHandler exCell, openreviewHandler exOpen,
       semanticscholarHandler exSS, githubHandler exGH, ieeeHandler exIEEE,
       aclHandler, htmlMetaHandler] := rfl


/-! ## First-match characterization of `List.find?` -/

/-- `List.find?` returns the element at the first position satisfying the
predicate: every earlier position fails it. -/
theorem find?_first {α : Type} (p : α → Bool) :
    ∀ (l : List α) (a : α), l.find? p = some a →
      ∃ i, ∃ hi : i < l.length, l.get ⟨i, hi⟩ = a ∧ p a = true ∧
        ∀ j, ∀ hj : j < i, p (l.get ⟨j, Nat.lt_trans hj hi⟩) = false := by
  intro l
  induction l with
  | nil => intro a h; simp [List.find?] at h
  | cons c t ih =>
      intro a h
      cases hpc : p c with
      | true =>
          rw [List.find?_cons_of_pos t hpc] at h
          have hca : c = a := by injection h
          refine ⟨0, Nat.succ_pos t.length, hca, hca ▸ hpc, ?_⟩
          intro j hj
          exact absurd hj (Nat.not_lt_zero j)
      | false =>
          rw [List.find?_cons_of_neg t (by simp [hpc])] at h
          obtain ⟨i, hi, hget, hpa, hprev⟩ := ih a h
          refine ⟨i + 1, Nat.succ_lt_succ hi, hget, hpa, ?_⟩
          intro j hj
          cases j with
          | zero => simpa using hpc
          | succ j0 => simpa using hprev j0 (Nat.lt_of_succ_lt_succ hj)

/-! ## The fetch result does not depend on the random stream -/

set_option maxHeartbeats 1000000 in
/-- The first component (the returned value) of the retry loop is the same
for any two random streams, stream positions and trace accumulators: the
randomness only shapes sleep durations and request headers, which the
deterministic transport does not observe. -/
theorem fetchAux_fst_rng_indep (t : Transport) (url : String)
    (params : List (String × String)) (accept : String) (ub : Bool) :
    ∀ (rem att : Nat) (rng1 rng2 : Rng) (k1 k2 : Nat) (tr1 tr2 : List SleepEvent),
      (fetchAux t rng1 url params accept ub rem att k1 tr1).1 =
      (fetchAux t rng2 url params accept ub rem att k2 tr2).1 := by
  intro rem
  induction rem with
  | zero => intro att rng1 rng2 k1 k2 tr1 tr2; rfl
  | succ n ih =>
      intro att rng1 rng2 k1 k2 tr1 tr2
      simp only [fetchAux]
      cases t url params accept att <;> (repeat' split) <;> first | rfl | apply ih

/-- Random-stream independence of `fetch_with_retry`'s returned value. -/
theorem fetch_fst_rng_indep (t : Transport) (url : String)
    (params : List (String × String)) (maxRetries : Nat) (accept : String)
    (ub : Bool) (rng1 rng2 : Rng) :
    (fetch_with_retry t rng1 url params maxRetries accept ub).1 =
    (fetch_with_retry t rng2 url params maxRetries accept ub).1 :=
  fetchAux_fst_rng_indep t url params accept ub maxRetries 0 rng1 rng2 0 0 [] []

/-- `ArxivHandler` extraction is random-stream independent. -/
theorem arxivExtract_rng_indep (parse : AtomOracle) (t : Transport)
    (rng1 rng2 : Rng) (url : String) :
    arxivExtract parse t rng1 url = arxivExtract parse t rng2 url := by
  simp only [arxivExtract]
  cases arxivFind url with
  | none => rfl
  | some arxivId =>
      simp only [fetch_fst_rng_indep t ARXIV_API [("id_list", arxivId)] 3
        "application/atom+xml" true rng1 rng2]

/-- `DOIHandler` extraction is random-stream independent. -/
theorem doiExtract_rng_indep (t : Transport) (rng1 rng2 : Rng) (url : String) :
    doiExtract t rng1 url = doiExtract t rng2 url := by
  simp only [doiExtract]
  cases doiFind url with
  | none => rfl
  | some doi =>
      simp only [fetch_fst_rng_indep t (DOI_API ++ "/" ++ doi) [] 3
        "application/x-bibtex" true rng1 rng2]

/-- `ACLAnthologyHandler` extraction is random-stream independent. -/
theorem aclExtract_rng_indep (t : Transport) (rng1 rng2 : Rng) (url : String) :
    aclExtract t rng1 url = aclExtract t rng2 url := by
  simp only [aclExtract]
  cases aclFind url with
  | none => rfl
  | some pid =>
      simp only [fetch_fst_rng_indep t ("https://aclanthology.org/" ++ pid ++ ".bib") [] 3
        "text/plain" true rng1 rng2]

/-- `HTMLMetaHandler` extraction is random-stream independent. -/
theorem htmlMetaExtract_rng_indep (t : Transport) (rng1 rng2 : Rng) (url : String) :
    htmlMetaExtract t rng1 url = htmlMetaExtract t rng2 url := by
  simp only [htmlMetaExtract]
  simp only [fetch_fst_rng_indep t url [] 3 "text/html" true rng1 rng2]

/-- The instrumented converter computes the same result as `convert`: the
trace component only records which extraction procedures ran. -/
theorem convertTrace_fst (c : Url2Bibtex) (t : Transport) (rng : Rng) (url : String) :
    (c.convertTrace t rng url).1 = c.convert t rng url := by
  simp only [Url2Bibtex.convertTrace, Url2Bibtex.convert]
  rcases c.registry.get_handler url with _ | h
  · rfl
  · rcases h.extract_bibtex t rng url with e | v <;> rfl

/-! ## The claims -/

/-- C1, counterexample: with the default configuration over a transport
whose every request fails, the resolved fallback handler's extraction
returns no result, and `convert` returns the `None` sentinel to the caller —
it does not fail with a distinct conversion-failed error condition. -/
theorem c1_counterexample :
    (defaultConverter parse0 ex0 ex0 ex0 ex0 ex0 ex0 ex0).convert transport0 rng0
      "https://example.com" = Except.ok none := rfl

/-- C1, amended: whenever the registry resolves a handler whose
`extract_bibtex` returns no result, `Url2Bibtex.convert` returns the `None`
sentinel (absent text) to the caller; only the no-handler case raises. -/
theorem c1_theorem (c : Url2Bibtex) (t : Transport) (rng : Rng) (url : String)
    (h : Handler) (hres : c.registry.get_handler url = some h)
    (hext : h.extract_bibtex t rng url = Except.ok none) :
    c.convert t rng url = Except.ok none := by
  simp [Url2Bibtex.convert, hres, hext]

/-- Witness for C1 at a concrete converter, transport and URL. -/
theorem c1_witness :
    (defaultConverter parse0 ex0 ex0 ex0 ex0 ex0 ex0 ex0).convert transport0 rng0
      "https://foo.test" = Except.ok none :=
  c1_theorem (defaultConverter parse0 ex0 ex0 ex0 ex0 ex0 ex0 ex0) transport0 rng0
    "https://foo.test" htmlMetaHandler rfl rfl

/-- C2 (confirmed): `get_handler` returns exactly the first handler in
registration order whose `can_handle` accepts the URL — every earlier
handler rejects it — and returns `none` precisely when every registered
handler rejects the URL.  At most one handler is returned by construction. -/
theorem c2_theorem (r : HandlerRegistry) (url : String) :
    (∀ h, r.get_handler url = some h →
      ∃ i, ∃ hi : i < r._handlers.length,
        r._handlers.get ⟨i, hi⟩ = h ∧ h.can_handle url = true ∧
        ∀ j, ∀ hj : j < i,
          (r._handlers.get ⟨j, Nat.lt_trans hj hi⟩).can_handle url = false) ∧
    (r.get_handler url = none ↔ ∀ h ∈ r._handlers, h.can_handle url = false) := by
  constructor
  · intro h hfind
    simp only [HandlerRegistry.get_handler] at hfind
    exact find?_first (fun x => x.can_handle url) r._handlers h hfind
  · simp only [HandlerRegistry.get_handler, List.find?_eq_none, Bool.not_eq_true]

/-- Witness for C2: two stub strategies that both match; resolution returns
the first-registered one, and the position-0 characterization holds. -/
theorem c2_witness :
    ∃ i, ∃ hi : i < (HandlerRegistry.mk [stubHandlerA, stubHandlerB])._handlers.length,
      (HandlerRegistry.mk [stubHandlerA, stubHandlerB])._handlers.get ⟨i, hi⟩ = stubHandlerA ∧
      stubHandlerA.can_handle "https://both.match" = true ∧
      ∀ j, ∀ hj : j < i,
        ((HandlerRegistry.mk [stubHandlerA, stubHandlerB])._handlers.get
          ⟨j, Nat.lt_trans hj hi⟩).can_handle "https://both.match" = false :=
  (c2_theorem ⟨[stubHandlerA, stubHandlerB]⟩ "https://both.match").1 stubHandlerA rfl

/-- C3 (confirmed): when no registered handler accepts the URL, `convert`
raises the unsupported-URL `ValueError` — an error condition distinct from
an extraction failure (which is the `.ok none` sentinel) — and invokes no
handler's `extract_bibtex`. -/
theorem c3_theorem (c : Url2Bibtex) (t : Transport) (rng : Rng) (url : String)
    (hall : ∀ h ∈ c.registry._handlers, h.can_handle url = false) :
    c.convert t rng url =
      Except.error (ConvertErr.unsupported ("No handler found for URL: " ++ url)) ∧
    (c.convertTrace t rng url).2 = [] := by
  have hnone : c.registry.get_handler url = none := by
    simp only [HandlerRegistry.get_handler, List.find?_eq_none]
    intro x hx
    simp [hall x hx]
  constructor
  · simp [Url2Bibtex.convert, hnone]
  · simp [Url2Bibtex.convertTrace, hnone]

/-- Witness for C3: the default converter rejects a non-URL string with the
unsupported-URL error and an empty invocation trace. -/
theorem c3_witness :
    (defaultConverter parse0 ex0 ex0 ex0 ex0 ex0 ex0 ex0).convert transport0 rng0 "notaurl" =
      Except.error (ConvertErr.unsupported ("No handler found for URL: " ++ "notaurl")) ∧
    ((defaultConverter parse0 ex0 ex0 ex0 ex0 ex0 ex0 ex0).convertTrace transport0 rng0
      "notaurl").2 = [] :=
  c3_theorem (defaultConverter parse0 ex0 ex0 ex0 ex0 ex0 ex0 ex0) transport0 rng0 "notaurl"
    (by decide)

/-- C4, counterexample: the url-param handler returns the decoded `bib`
parameter verbatim, so a registered handler can return a nonempty success
value that does not begin with the character `@`. -/
theorem c4_counterexample :
    urlParamHandler.extract_bibtex transport0 rng0 "https://example.com/page?bib=hello" =
      Except.ok (some "hello") ∧ pyStartsWith "hello" "@" = false :=
  ⟨rfl, rfl⟩

/-- C4, amended: the ACL Anthology handler validates its response, so its
`extract_bibtex` only ever succeeds with a string beginning with `@`; the
url-param and DOI handlers return the decoded or fetched text unchecked. -/
theorem c4_theorem (t : Transport) (rng : Rng) (url : String) (s : String)
    (h : aclHandler.extract_bibtex t rng url = Except.ok (some s)) :
    pyStartsWith s "@" = true := by
  have h2 : aclExtract t rng url = Except.ok (some s) := h
  unfold aclExtract at h2
  repeat' split at h2
  all_goals simp_all
  split at h2
  · simp_all
  · simp_all

/-- Witness for C4: a concrete ACL Anthology URL against a stub export. -/
theorem c4_witness : pyStartsWith "@misc\x7bk\x7d" "@" = true :=
  c4_theorem aclStubTransport rng0 "https://aclanthology.org/N19-1423/" "@misc\x7bk\x7d" rfl

/-- C5 (code bug): against a transport that always answers 429 with the
non-numeric header `Retry-After: abc`, `fetch_with_retry` does not collapse
to the `None` sentinel: `int(response.headers.get("Retry-After", ...))`
raises an uncaught `ValueError` past the fetcher's boundary. -/
theorem c5_theorem :
    (fetch_with_retry badRetryTransport rng0 "https://api.test" [] 3
        "application/json" true).1 =
      Except.error (PyExn.valueError "invalid literal for int with base 10: abc") := rfl

/-- C6 (confirmed): with `max_retries = 3`, a transport failing with a
transient error on the first two attempts and succeeding on the third yields
the successful response with exactly 2 backoff sleeps; a transport always
answering 429 with `Retry-After: 5` records a 5-second rate-limit sleep
after each 429 answer (attempts 0, 1 and 2), hence one before each retry. -/
theorem c6_theorem :
    ((fetch_with_retry flakyTransport rng0 "https://api.test" [] 3
        "application/json" true).1 = Except.ok (some (FetchVal.bytes "ok")) ∧
      ((fetch_with_retry flakyTransport rng0 "https://api.test" [] 3
        "application/json" true).2.filter
          (fun e => e.kind = SleepKind.backoff)).length = 2) ∧
    ((fetch_with_retry rateLimitedTransport rng0 "https://api.test" [] 3
        "application/json" true).2.filter
          (fun e => e.kind = SleepKind.rateLimit)).map
        (fun e => (e.attempt, e.dur)) = [(0, (5 : ℚ)), (1, (5 : ℚ)), (2, (5 : ℚ))] :=
  ⟨⟨rfl, rfl⟩, rfl⟩

/-- C7, counterexample: the arXiv renderer keys `"Doe, Jane"` as
`jane2021`, not `doe2021` — it takes the last whitespace-separated token
without comma handling, so the two claimed author forms disagree there. -/
theorem c7_counterexample :
    arxivBibtexKey ["Doe, Jane"] "2021" = Except.ok "jane2021" ∧
      "jane2021" ≠ "doe2021" :=
  ⟨rfl, by decide⟩

/-- C7, amended: the HTML-meta fallback renderer derives the key as the
lowercased family name of the first author plus the year, stripped of
non-alphanumeric characters, with `"Jane Doe"` and `"Doe, Jane"` both
yielding `doe2021` and `web<year>` when no author is known; the arXiv
renderer instead lowercases the last whitespace-separated token with no
stripping, so only `"Jane Doe"` yields `doe2021` there (`"Doe, Jane"`
yields `jane2021`), with `arxiv<year>` when no author is known. -/
theorem c7_theorem :
    htmlMetaBibtexKey ["Jane Doe"] "2021" = "doe2021" ∧
    htmlMetaBibtexKey ["Doe, Jane"] "2021" = "doe2021" ∧
    htmlMetaBibtexKey ["Jane Doe-Smith"] "2021" = "doesmith2021" ∧
    htmlMetaBibtexKey [] "2021" = "web2021" ∧
    arxivBibtexKey ["Jane Doe"] "2021" = Except.ok "doe2021" ∧
    arxivBibtexKey ["Doe, Jane"] "2021" = Except.ok "jane2021" ∧
    arxivBibtexKey [] "2021" = Except.ok "arxiv2021" :=
  ⟨rfl, rfl, rfl, rfl, rfl, rfl, rfl⟩

set_option maxRecDepth 4096 in
/-- C8 (confirmed): for `https://arxiv.org/abs/2103.15348` with the fetch
layer stubbed to an Atom entry carrying title "Example Paper", author
"Jane Doe", published date "2021-03-01" and primary category "cs.CV", the
arXiv strategy produces exactly the claimed `@article` entry with key
`doe2021`. -/
theorem c8_theorem :
    (arxivHandler atomOracle8).extract_bibtex arxivTransport8 rng0
        "https://arxiv.org/abs/2103.15348" =
      Except.ok (some ("@article\x7bdoe2021,\n  title = \x7bExample Paper\x7d,\n  author = \x7bJane Doe\x7d,\n  year = \x7b2021\x7d,\n  journal = \x7barXiv preprint arXiv:2103.15348\x7d,\n  eprint = \x7b2103.15348\x7d,\n  archivePrefix = \x7barXiv\x7d,\n  primaryClass = \x7bcs.CV\x7d,\n  url = \x7bhttps://arxiv.org/abs/2103.15348\x7d\n\x7d")) := rfl

/-- C9 (confirmed): conversion is deterministic against a fixed transport.
For the default converter — provided the seven strategies whose extraction
is opaque here do not read the random stream, as the five embedded ones
provably do not — two runs of `convert` on the same URL with the same
deterministic transport but arbitrary random streams return identical
results. -/
theorem c9_theorem (parse : AtomOracle)
    (exBio exPii exCell exOpen exSS exGH exIEEE : ExtractFn)
    (hBio : ∀ tp r1 r2 u, exBio tp r1 u = exBio tp r2 u)
    (hPii : ∀ tp r1 r2 u, exPii tp r1 u = exPii tp r2 u)
    (hCell : ∀ tp r1 r2 u, exCell tp r1 u = exCell tp r2 u)
    (hOpen : ∀ tp r1 r2 u, exOpen tp r1 u = exOpen tp r2 u)
    (hSS : ∀ tp r1 r2 u, exSS tp r1 u = exSS tp r2 u)
    (hGH : ∀ tp r1 r2 u, exGH tp r1 u = exGH tp r2 u)
    (hIEEE : ∀ tp r1 r2 u, exIEEE tp r1 u = exIEEE tp r2 u)
    (t : Transport) (rng1 rng2 : Rng) (url : String) :
    (defaultConverter parse exBio exPii exCell exOpen exSS exGH exIEEE).convert t rng1 url =
    (defaultConverter parse exBio exPii exCell exOpen exSS exGH exIEEE).convert t rng2 url := by
  rcases hgh : (defaultConverter parse exBio exPii exCell exOpen exSS exGH
      exIEEE).registry.get_handler url with _ | h
  · simp only [Url2Bibtex.convert, hgh]
  · have hmem : h ∈ (defaultConverter parse exBio exPii exCell exOpen exSS exGH
        exIEEE).registry._handlers := by
      have hgh2 := hgh
      simp only [HandlerRegistry.get_handler] at hgh2
      exact List.mem_of_find?_eq_some hgh2
    rw [defaultConverter_handlers] at hmem
    simp only [List.mem_cons, List.not_mem_nil, or_false] at hmem
    simp only [Url2Bibtex.convert, hgh]
    rcases hmem with rfl | rfl | rfl | rfl | rfl | rfl | rfl | rfl | rfl | rfl | rfl | rfl
    · rfl
    · have hx : (arxivHandler parse).extract_bibtex t rng1 url =
          (arxivHandler parse).extract_bibtex t rng2 url :=
        arxivExtract_rng_indep parse t rng1 rng2 url
      rw [hx]
    · have hx : doiHandler.extract_bibtex t rng1 url =
          doiHandler.extract_bibtex t rng2 url :=
        doiExtract_rng_indep t rng1 rng2 url
      rw [hx]
    · have hx : (biorxivHandler exBio).extract_bibtex t rng1 url =
          (biorxivHandler exBio).extract_bibtex t rng2 url := hBio t rng1 rng2 url
      rw [hx]
    · have hx : (piiHandler exPii).extract_bibtex t rng1 url =
          (piiHandler exPii).extract_bibtex t rng2 url := hPii t rng1 rng2 url
      rw [hx]
    · have hx : (cellHandler exCell).extract_bibtex t rng1 url =
          (cellHandler exCell).extract_bibtex t rng2 url := hCell t rng1 rng2 url
      rw [hx]
    · have hx : (openreviewHandler exOpen).extract_bibtex t rng1 url =
          (openreviewHandler exOpen).extract_bibtex t rng2 url := hOpen t rng1 rng2 url
      rw [hx]
    · have hx : (semanticscholarHandler exSS).extract_bibtex t rng1 url =
          (semanticscholarHandler exSS).extract_bibtex t rng2 url := hSS t rng1 rng2 url
      rw [hx]
    · have hx : (githubHandler exGH).extract_bibtex t rng1 url =
          (githubHandler exGH).extract_bibtex t rng2 url := hGH t rng1 rng2 url
      rw [hx]
    · have hx : (ieeeHandler exIEEE).extract_bibtex t rng1 url =
          (ieeeHandler exIEEE).extract_bibtex t rng2 url := hIEEE t rng1 rng2 url
      rw [hx]
    · have hx : aclHandler.extract_bibtex t rng1 url =
          aclHandler.extract_bibtex t rng2 url := aclExtract_rng_indep t rng1 rng2 url
      rw [hx]
    · have hx : htmlMetaHandler.extract_bibtex t rng1 url =
          htmlMetaHandler.extract_bibtex t rng2 url := htmlMetaExtract_rng_indep t rng1 rng2 url
      rw [hx]

/-- Witness for C9: two different concrete random streams, same transport,
same URL, identical conversion results. -/
theorem c9_witness :
    (defaultConverter parse0 ex0 ex0 ex0 ex0 ex0 ex0 ex0).convert transport0 rng0
        "https://arxiv.org/abs/2103.15348" =
    (defaultConverter parse0 ex0 ex0 ex0 ex0 ex0 ex0 ex0).convert transport0 rngAlt
        "https://arxiv.org/abs/2103.15348" :=
  c9_theorem parse0 ex0 ex0 ex0 ex0 ex0 ex0 ex0
    (fun _ _ _ _ => rfl) (fun _ _ _ _ => rfl) (fun _ _ _ _ => rfl) (fun _ _ _ _ => rfl)
    (fun _ _ _ _ => rfl) (fun _ _ _ _ => rfl) (fun _ _ _ _ => rfl)
    transport0 rng0 rngAlt "https://arxiv.org/abs/2103.15348"

/-- C10 (confirmed): in the default configuration the fallback handler
accepts every `http://` or `https://` URL, so `can_convert` is true for all
of them; and the unsupported-URL error of `convert` implies every handler
rejected the URL, in particular the URL starts with neither prefix and
carries no `bib` query parameter. -/
theorem c10_theorem (parse : AtomOracle)
    (exBio exPii exCell exOpen exSS exGH exIEEE : ExtractFn) (url : String) :
    ((pyStartsWith url "http://" || pyStartsWith url "https://") = true →
      (defaultConverter parse exBio exPii exCell exOpen exSS exGH exIEEE).can_convert url =
        true) ∧
    (∀ (t : Transport) (rng : Rng) (msg : String),
      (defaultConverter parse exBio exPii exCell exOpen exSS exGH exIEEE).convert t rng url =
        Except.error (ConvertErr.unsupported msg) →
      pyStartsWith url "http://" = false ∧ pyStartsWith url "https://" = false ∧
        urlParamCanHandle url = false) := by
  constructor
  · intro hpre
    have hmem : htmlMetaHandler ∈ (defaultConverter parse exBio exPii exCell exOpen exSS
        exGH exIEEE).registry._handlers := by
      rw [defaultConverter_handlers]
      simp
    simp only [Url2Bibtex.can_convert, HandlerRegistry.get_handler]
    exact List.find?_isSome.mpr ⟨htmlMetaHandler, hmem, hpre⟩
  · intro t rng msg hconv
    have hnone : (defaultConverter parse exBio exPii exCell exOpen exSS exGH
        exIEEE).registry.get_handler url = none := by
      rcases hgh : (defaultConverter parse exBio exPii exCell exOpen exSS exGH
          exIEEE).registry.get_handler url with _ | h
      · rfl
      · exfalso
        simp only [Url2Bibtex.convert, hgh] at hconv
        rcases hext : h.extract_bibtex t rng url with e | v <;> simp [hext] at hconv
    simp only [HandlerRegistry.get_handler] at hnone
    have hall := List.find?_eq_none.mp hnone
    rw [defaultConverter_handlers] at hall
    have hw := hall htmlMetaHandler (by simp)
    have hu := hall urlParamHandler (by simp)
    simp only [Bool.not_eq_true] at hw hu
    refine ⟨?_, ?_, hu⟩
    · have hw2 : (pyStartsWith url "http://" || pyStartsWith url "https://") = false := hw
      exact (Bool.or_eq_false_iff.mp hw2).1
    · have hw2 : (pyStartsWith url "http://" || pyStartsWith url "https://") = false := hw
      exact (Bool.or_eq_false_iff.mp hw2).2

/-- Witness for C10 at a concrete HTTPS URL. -/
theorem c10_witness :
    (defaultConverter parse0 ex0 ex0 ex0 ex0 ex0 ex0 ex0).can_convert
      "https://example.org/page" = true :=
  (c10_theorem parse0 ex0 ex0 ex0 ex0 ex0 ex0 ex0 "https://example.org/page").1 rfl
